import Mathlib

/-!
Shallow embedding of the mdn-ellt library-catalog application: entity records,
the express-validator sanitization pipeline used by the controllers, and the
genre / book / bookinstance request handlers that the verified properties are
about.  Stores are lists of records; a handler is a pure function from the
store (and the request data) to the updated store and the response it emits.
-/

namespace MdnEllt

/-- Document identifiers are opaque stable tokens (ObjectId hex strings). -/
abbrev Oid := String

/-! ### External collaborator: the validator sanitizers

`trim` is JavaScript string trim (`jsTrim` below); `escape` is validator.js `escape`, which replaces
the markup-significant characters by HTML entities. -/

/-- JavaScript `trim` (the validator `trim()` sanitizer): drop leading and
trailing whitespace. -/
def jsTrim (s : String) : String :=
  String.mk (((s.toList.dropWhile Char.isWhitespace).reverse.dropWhile
    Char.isWhitespace).reverse)

/-- One character of validator.js `escape` (the last branch, `Char.ofNat 96`,
is the backquote character). -/
def escapeChar (c : Char) : String :=
  if c = '&' then "&amp;"
  else if c = '<' then "&lt;"
  else if c = '>' then "&gt;"
  else if c = '"' then "&quot;"
  else if c = '\'' then "&#x27;"
  else if c = '/' then "&#x2F;"
  else if c = '\\' then "&#x5C;"
  else if c = Char.ofNat 96 then "&#96;"
  else String.singleton c

/-- validator.js `escape`, applied characterwise. -/
def escapeHtml (s : String) : String :=
  String.join (s.toList.map escapeChar)

/-! ### Entity records (§3 of the data model) -/

/-- Modelled from the spec: the Genre model file is not among the sources;
per §3 a Genre has a required `name` (min length 3 enforced by the
validation layer) and a canonical URL derived from the id. -/
structure Genre where
  _id : Oid
  name : String
deriving DecidableEq, Repr

/-- Modelled from the spec: the Genre canonical URL, derived from the id. -/
def Genre.url (g : Genre) : String := "/catalog/genre/" ++ g._id

/-- Modelled from the spec: the Book model file is not among the sources;
per §3 a Book has title, author reference, summary, isbn (all required) and
zero or more genre references, with a canonical URL derived from the id. -/
structure Book where
  _id : Oid
  title : String
  author : Oid
  summary : String
  isbn : String
  genre : List Oid
deriving DecidableEq, Repr

/-- Modelled from the spec: the Book canonical URL, derived from the id. -/
def Book.url (b : Book) : String := "/catalog/book/" ++ b._id

/-- Modelled from the spec: the BookInstance model file is not among the
sources; per §3 a BookInstance has a required book reference, a required
imprint, a status, an optional due-back date, and a canonical URL derived
from the id.  The due-back value is kept as the submitted string. -/
structure BookInstance where
  _id : Oid
  book : Oid
  imprint : String
  status : String
  due_back : String
deriving DecidableEq, Repr

/-- Modelled from the spec: the BookInstance canonical URL. -/
def BookInstance.url (b : BookInstance) : String := "/catalog/bookinstance/" ++ b._id

/-- `src/models/author.js`: first_name and family_name (required strings),
optional dates.  A field can be absent (`none`) or present; JavaScript
truthiness treats both an absent field and the empty string as falsy. -/
structure Author where
  first_name : Option String
  family_name : Option String
  date_of_birth : Option Nat
  date_of_death : Option Nat
deriving DecidableEq, Repr

/-- JavaScript truthiness of an optional string field: `undefined` and the
empty string are falsy. -/
def strTruthy : Option String → Bool
  | none => false
  | some s => s ≠ ""

/-- `AuthorSchema.virtual('name')` in `src/models/author.js`:
`fullname = first_name + ", " + family_name` when
`this.first_name && this.family_name` is truthy, otherwise the initial
empty string is returned. -/
def Author.name (a : Author) : String :=
  if strTruthy a.first_name && strTruthy a.family_name then
    a.first_name.getD "" ++ ", " ++ a.family_name.getD ""
  else ""

/-! ### The document store

A store is the list of persisted records, in insertion order.  `findOne`
returns the first record matching the filter; `findByIdAndUpdate` replaces
the record with the given id in place (no upsert: options `{}`) and returns
the pre-update document, or `none` when the id does not resolve. -/

/-- `Model.findOne({ name })`: first record whose name equals `n`. -/
def findOneGenreByName (gs : List Genre) (n : String) : Option Genre :=
  gs.find? (fun g => g.name = n)

/-- `Model.findById(id)`: the record with that id, if any. -/
def findGenreById (gs : List Genre) (id : Oid) : Option Genre :=
  gs.find? (fun g => g._id = id)

/-- `Genre.findByIdAndUpdate(id, doc, {})`: replace in place, return the
pre-update document (`none` when the id does not resolve; no upsert). -/
def findByIdAndUpdateGenre (gs : List Genre) (id : Oid) (doc : Genre) :
    List Genre × Option Genre :=
  (gs.map (fun r => if r._id = id then doc else r), gs.find? (fun r => r._id = id))

/-- `Book.findByIdAndUpdate(id, doc, {})`. -/
def findByIdAndUpdateBook (bs : List Book) (id : Oid) (doc : Book) :
    List Book × Option Book :=
  (bs.map (fun r => if r._id = id then doc else r), bs.find? (fun r => r._id = id))

/-- `BookInstance.findByIdAndUpdate(id, doc, {})`. -/
def findByIdAndUpdateBI (bis : List BookInstance) (id : Oid) (doc : BookInstance) :
    List BookInstance × Option BookInstance :=
  (bis.map (fun r => if r._id = id then doc else r), bis.find? (fun r => r._id = id))

/-! ### Genre controller (`src/controllers/genreController.js`) -/

/-- Validation errors for the genre `name` field:
`body('name', msg).trim().isLength({ min: 3 }).escape()` — the length bound
is checked on the trimmed, not-yet-escaped value. -/
def genreNameErrors (raw : String) : List String :=
  if (jsTrim raw).length < 3 then ["Genre must contain at least 3 characteres"] else []

/-- The sanitized genre name as it sits in `req.body.name` after the
validation chain ran: trimmed then escaped. -/
def sanitizedGenreName (raw : String) : String :=
  escapeHtml (jsTrim raw)

/-- Responses a genre handler can emit.  `nextErr` forwards an error object
(message and the `status` property set on that error object, if any) to the
generic error responder; `crash` is an uncaught TypeError escaping the
handler. -/
inductive GenreRes
  | renderForm (title : String) (errors : List String) (genre : Option Genre)
  | renderDelete (title : String) (genre : Option Genre) (genre_books : List Book)
  | renderDetail (title : String) (genre : Genre) (genre_books : List Book)
  | redirect (url : String)
  | nextErr (message : String) (status : Option Nat)
  | crash
deriving DecidableEq, Repr

/-- `genre_detail`: fetch the genre and the books in it; on a miss forward a
`'Genre not found'` error whose `status` property was set to 404. -/
def genre_detail (gs : List Genre) (books : List Book) (pathId : Oid) : GenreRes :=
  let booksInGenre := books.filter (fun b => b.genre.contains pathId)
  match findGenreById gs pathId with
  | none => .nextErr "Genre not found" (some 404)
  | some genre => .renderDetail "Genre Detail" genre booksInGenre

/-- `genre_create_post`: validate/sanitize the name, build the candidate
`new Genre({ name: req.body.name })` (the store assigns `freshId` at
creation), re-render on errors, otherwise look up an existing genre with the
same name and redirect to it, else save and redirect to the new record. -/
def genre_create_post (gs : List Genre) (freshId : Oid) (rawName : String) :
    List Genre × GenreRes :=
  let errors := genreNameErrors rawName
  let name := sanitizedGenreName rawName
  let genre : Genre := { _id := freshId, name := name }
  if errors ≠ [] then
    (gs, .renderForm "Create Genre" errors (some genre))
  else
    match findOneGenreByName gs name with
    | some genreExists => (gs, .redirect genreExists.url)
    | none => (gs ++ [genre], .redirect genre.url)

/-- `genre_delete_get`: the source redirects when the genre is `null` but is
missing a `return`, so execution falls through and `res.render` runs
unconditionally afterwards; the handler's emissions are returned in order. -/
def genre_delete_get (gs : List Genre) (books : List Book) (pathId : Oid) :
    List GenreRes :=
  let genre? := findGenreById gs pathId
  let allBooksWithGenre := books.filter (fun b => b.genre.contains pathId)
  (if genre? = none then [GenreRes.redirect "/catalog/genres"] else []) ++
    [GenreRes.renderDelete "Delete Genre" genre? allBooksWithGenre]

/-- `genre_update_get`: on a miss the source sets `res.status = 404` (a
property on the response object) and forwards the error, whose own `status`
property is never set; the second component records the value written onto
`res.status`. -/
def genre_update_get (gs : List Genre) (pathId : Oid) : GenreRes × Option Nat :=
  match findGenreById gs pathId with
  | none => (.nextErr "Genre not found" none, some 404)
  | some genre => (.renderForm "Update Genre" [] (some genre), none)

/-- `genre_update_post`: same validation chain as create; the candidate
carries the path id (`_id: req.params.id`); on success look up any genre
with the sanitized name and redirect to it without writing, otherwise
`findByIdAndUpdate` and redirect to `thegenre.url` — reading `.url` off a
`null` result is an uncaught TypeError. -/
def genre_update_post (gs : List Genre) (pathId : Oid) (rawName : String) :
    List Genre × GenreRes :=
  let errors := genreNameErrors rawName
  let name := sanitizedGenreName rawName
  let genre : Genre := { _id := pathId, name := name }
  if errors ≠ [] then
    (gs, .renderForm "Update Genre" errors (some genre))
  else
    match findOneGenreByName gs name with
    | some genreExists => (gs, .redirect genreExists.url)
    | none =>
        match findByIdAndUpdateGenre gs pathId genre with
        | (gs', some thegenre) => (gs', .redirect thegenre.url)
        | (gs', none) => (gs', .crash)

/-! ### BookInstance controller (`src/controllers/bookInstanceController.js`)

The due-back chain `optional({ values: 'falsy' }).isISO8601().toDate()` skips
validation when the submitted value is falsy (the empty string); the ISO-8601
check itself is an external collaborator and is passed in as `iso`. -/

/-- The raw fields of a bookinstance form submission. -/
structure BIForm where
  book : String
  imprint : String
  status : String
  due_back : String
deriving DecidableEq, Repr

/-- Validation errors for a bookinstance form, in field-declaration order. -/
def biErrors (iso : String → Bool) (f : BIForm) : List String :=
  (if jsTrim f.book = "" then ["Book must be specified"] else []) ++
  (if jsTrim f.imprint = "" then ["Imprint must be specified"] else []) ++
  (if f.due_back = "" then [] else if iso f.due_back then [] else ["Invalid date"])

/-- The candidate `new BookInstance({...})` built from the sanitized body;
`_id` is filled in by the caller (fresh on create, the path id on update). -/
def biCandidate (f : BIForm) (id : Oid) : BookInstance :=
  { _id := id
    book := escapeHtml (jsTrim f.book)
    imprint := escapeHtml (jsTrim f.imprint)
    status := escapeHtml f.status
    due_back := f.due_back }

/-- Responses a bookinstance handler can emit. -/
inductive BIRes
  | renderForm (title : String) (errors : List String)
      (book_list : List Book) (bookInstance : Option BookInstance)
  | renderDelete (title : String) (book_instance : BookInstance)
  | redirect (url : String)
  | nextErr (message : String) (status : Option Nat)
  | crash
deriving DecidableEq, Repr

/-- `bookinstance_delete_get`: redirect (to the relative path
`'catalog/bookinstances'` as in the source) when the record is already gone,
otherwise render the delete confirmation; a proper if/else, one response. -/
def bookinstance_delete_get (bis : List BookInstance) (pathId : Oid) : BIRes :=
  match bis.find? (fun b => b._id = pathId) with
  | none => .redirect "catalog/bookinstances"
  | some bookInstance => .renderDelete "Book Instance Delete" bookInstance

/-- `bookinstance_update_get`: on a miss the source sets `res.status = 404`
on the response object and forwards an error whose own `status` property is
never set; the second component records the write to `res.status`. -/
def bookinstance_update_get (bis : List BookInstance) (books : List Book)
    (pathId : Oid) : BIRes × Option Nat :=
  match bis.find? (fun b => b._id = pathId) with
  | none => (.nextErr "Book Instance not found" none, some 404)
  | some bookInstance =>
      (.renderForm "Update book instance" [] books (some bookInstance), none)

/-- `bookinstance_update_post`: validate, build the candidate with the old
id, re-render on errors (the source reuses the title `'Create Book
Instance'` there), otherwise `findByIdAndUpdate` and redirect to
`theBookInstance.url`, a TypeError when the id did not resolve. -/
def bookinstance_update_post (iso : String → Bool) (bis : List BookInstance)
    (books : List Book) (pathId : Oid) (f : BIForm) :
    List BookInstance × BIRes :=
  let errors := biErrors iso f
  let bookInstance := biCandidate f pathId
  if errors ≠ [] then
    (bis, .renderForm "Create Book Instance" errors books (some bookInstance))
  else
    match findByIdAndUpdateBI bis pathId bookInstance with
    | (bis', some theBookInstance) => (bis', .redirect theBookInstance.url)
    | (bis', none) => (bis', .crash)

/-! ### Book controller (the bookController variant with update implemented) -/

/-- The submitted `genre` field before the normalization middleware ran: a
list, a single value, or absent (`typeof req.body.genre === 'undefined'`). -/
inductive GenreField
  | absent
  | single (v : String)
  | list (vs : List String)
deriving DecidableEq, Repr

/-- The normalization middleware of `book_create_post` / `book_update_post`:
`if (!(req.body.genre instanceof Array)) { if (typeof req.body.genre ===
'undefined') req.body.genre = []; else req.body.genre = new Array(req.body.genre); }` -/
def normalizeGenre : GenreField → List String
  | .list vs => vs
  | .absent => []
  | .single v => [v]

/-- The raw fields of a book form submission. -/
structure BookForm where
  title : String
  author : String
  summary : String
  isbn : String
  genre : GenreField
deriving DecidableEq, Repr

/-- Validation errors of `book_create_post`, in field-declaration order
(the create chain's title and author messages end with a period). -/
def bookErrorsCreate (f : BookForm) : List String :=
  (if jsTrim f.title = "" then ["Title must not be empty."] else []) ++
  (if jsTrim f.author = "" then ["Author must not be empty."] else []) ++
  (if jsTrim f.summary = "" then ["Summary must not be empty"] else []) ++
  (if jsTrim f.isbn = "" then ["ISBN must not be empty"] else [])

/-- Validation errors of `book_update_post` (no periods in the messages). -/
def bookErrorsUpdate (f : BookForm) : List String :=
  (if jsTrim f.title = "" then ["Title must not be empty"] else []) ++
  (if jsTrim f.author = "" then ["Author must not be empty"] else []) ++
  (if jsTrim f.summary = "" then ["Summary must not be empty"] else []) ++
  (if jsTrim f.isbn = "" then ["ISBN must not be empty"] else [])

/-- The candidate `new Book({...})` built from the body after the
normalization middleware and the sanitizers (`trim().escape()` on the
scalar fields, `body('genre.*').escape()` on each genre value); `_id` is
filled in by the caller. -/
def bookCandidate (f : BookForm) (id : Oid) : Book :=
  { _id := id
    title := escapeHtml (jsTrim f.title)
    author := escapeHtml (jsTrim f.author)
    summary := escapeHtml (jsTrim f.summary)
    isbn := escapeHtml (jsTrim f.isbn)
    genre := (normalizeGenre f.genre).map escapeHtml }

/-- The checked-state marking loop: for each genre option, `checked` is set
exactly when `book.genre.indexOf(genre._id) > -1` (membership by id value
in the candidate's genre list). -/
def markChecked (genres : List Genre) (sel : List Oid) : List (Genre × Bool) :=
  genres.map (fun g => (g, sel.contains g._id))

/-- Responses a book handler can emit. -/
inductive BookRes
  | renderForm (title : String) (errors : List String) (authors : List Author)
      (genres : List (Genre × Bool)) (book : Book)
  | redirect (url : String)
  | crash
deriving DecidableEq, Repr

/-- `book_create_post` (after the normalization middleware and validators):
on errors re-fetch authors and genres, mark the candidate's genres checked,
and re-render without persisting; otherwise save and redirect. -/
def book_create_post (bs : List Book) (authors : List Author)
    (genres : List Genre) (freshId : Oid) (f : BookForm) :
    List Book × BookRes :=
  let errors := bookErrorsCreate f
  let book := bookCandidate f freshId
  if errors ≠ [] then
    (bs, .renderForm "Create Book" errors authors (markChecked genres book.genre) book)
  else
    (bs ++ [book], .redirect book.url)

/-- The source's `book_update_post` branches on `!errors.isEmpty` without
calling the method: a method reference is an object, objects are truthy,
so the negation is constantly `false` and the error branch is dead code. -/
def notErrorsIsEmptyRef : Bool := false

/-- `book_update_post`: builds the candidate with the old id, then tests
`!errors.isEmpty` (see `notErrorsIsEmptyRef`), so it always falls into the
persist branch: `findByIdAndUpdate` and redirect to `thebook.url`. -/
def book_update_post (bs : List Book) (authors : List Author)
    (genres : List Genre) (pathId : Oid) (f : BookForm) :
    List Book × BookRes :=
  let errors := bookErrorsUpdate f
  let book := bookCandidate f pathId
  if notErrorsIsEmptyRef then
    (bs, .renderForm "Update Book" errors authors (markChecked genres book.genre) book)
  else
    match findByIdAndUpdateBook bs pathId book with
    | (bs', some thebook) => (bs', .redirect thebook.url)
    | (bs', none) => (bs', .crash)

/-! ### Helper lemmas -/

/-- Replacing, in place, every record whose projection equals `k` by a
document whose projection is `k` leaves the projected list unchanged. -/
theorem map_proj_replace {α β : Type} [DecidableEq β] (l : List α) (p : α → β)
    (k : β) (d : α) (hd : p d = k) :
    (l.map (fun r => if p r = k then d else r)).map p = l.map p := by
  rw [List.map_map]
  refine List.map_congr_left (fun r _ => ?_)
  by_cases hc : p r = k
  · simp [hc, hd]
  · simp [hc]

/-! ### Claim theorems -/

/-- C1: claimed — a Book update POST whose input fails validation re-renders
the form and performs no replace-by-identifier write.  The code violates
this: `book_update_post` tests `!errors.isEmpty` (a truthy method
reference), so with every field empty — four validation errors — it still
writes the invalid candidate over the stored book and redirects. -/
theorem C1_invalid_book_update_still_persists :
    bookErrorsUpdate ⟨"", "", "", "", .absent⟩ ≠ [] ∧
    book_update_post [⟨"7", "Old title", "a1", "Old summary", "111", []⟩] [] [] "7"
        ⟨"", "", "", "", .absent⟩ =
      ([⟨"7", "", "", "", "", []⟩], .redirect "/catalog/book/7") := by
  constructor
  · decide
  · decide

/-- C4: claimed — a delete GET on an absent identifier produces exactly one
response, the redirect.  The genre handler violates this: the source lacks a
`return` after `res.redirect`, so on a miss it emits the redirect and then
also invokes the confirmation-view render (a second response attempt),
while the bookinstance handler correctly emits the single redirect. -/
theorem C4_genre_delete_get_emits_two_responses :
    genre_delete_get [] [] "g1" =
      [.redirect "/catalog/genres", .renderDelete "Delete Genre" none []] ∧
    (genre_delete_get [] [] "g1").length ≠ 1 ∧
    bookinstance_delete_get [] "b1" = .redirect "catalog/bookinstances" := by
  refine ⟨by decide, by decide, by decide⟩

/-- C5: claimed — detail GET and update GET on an absent identifier forward
an error carrying a 404-equivalent status.  The update GET handlers violate
this: they assign 404 to the response object's `status` property instead of
the error's, so the error forwarded to the generic responder carries no
status (`none`), while `genre_detail` correctly forwards status 404. -/
theorem C5_update_get_error_carries_no_status :
    genre_update_get [] "g1" = (.nextErr "Genre not found" none, some 404) ∧
    bookinstance_update_get [] [] "b1" =
      (.nextErr "Book Instance not found" none, some 404) ∧
    genre_detail [] [] "g1" = .nextErr "Genre not found" (some 404) := by
  refine ⟨by decide, by decide, by decide⟩

/-- C6 counterexample: the claim says the derived full name is
`"family_name, first_name"`; for first name John and family name Doe the
virtual yields `"John, Doe"`, not `"Doe, John"`. -/
theorem C6_name_order_counterexample :
    Author.name ⟨some "John", some "Doe", none, none⟩ = "John, Doe" ∧
    ("John, Doe" : String) ≠ "Doe, John" := by
  refine ⟨by decide, by decide⟩

/-- C6 amended: the derived full display name is
`"first_name, family_name"` (first name first) when both names are present
and non-empty, and the empty string when either is missing or empty. -/
theorem C6_full_name_first_name_first (a : Author) :
    (strTruthy a.first_name = true → strTruthy a.family_name = true →
      a.name = a.first_name.getD "" ++ ", " ++ a.family_name.getD "") ∧
    (¬ (strTruthy a.first_name = true ∧ strTruthy a.family_name = true) →
      a.name = "") := by
  constructor
  · intro h1 h2
    simp [Author.name, h1, h2]
  · intro h
    rw [Author.name, if_neg]
    simp only [Bool.and_eq_true]
    exact h

/-- C6 witness: an author with both names present displays first name
first. -/
theorem C6_full_name_witness :
    Author.name ⟨some "Agatha", some "Christie", none, none⟩ = "Agatha, Christie" :=
  (C6_full_name_first_name_first ⟨some "Agatha", some "Christie", none, none⟩).1
    (by decide) (by decide)

/-- C8: the Book create/update genre field is normalized before use: a
single value becomes a one-element list, an absent value the empty list, a
list passes through unchanged; the candidate book's genre list is exactly
the normalized (then element-escaped) submitted field. -/
theorem C8_genre_field_normalization :
    (∀ v, normalizeGenre (GenreField.single v) = [v]) ∧
    normalizeGenre GenreField.absent = [] ∧
    (∀ vs, normalizeGenre (GenreField.list vs) = vs) ∧
    (∀ f id, (bookCandidate f id).genre = (normalizeGenre f.genre).map escapeHtml) :=
  ⟨fun _ => rfl, rfl, fun _ => rfl, fun _ _ => rfl⟩

/-- C2: a valid Genre create whose sanitized name matches an existing record
creates no second record (the store is unchanged) and redirects to the
existing record's canonical URL; when no record matches, the candidate is
appended to the store and the handler redirects to its canonical URL. -/
theorem C2_genre_create_dedup (gs : List Genre) (freshId : Oid) (raw : String)
    (hv : genreNameErrors raw = []) :
    (∀ g, findOneGenreByName gs (sanitizedGenreName raw) = some g →
      genre_create_post gs freshId raw = (gs, .redirect g.url) ∧
        g ∈ gs ∧ g.name = sanitizedGenreName raw) ∧
    (findOneGenreByName gs (sanitizedGenreName raw) = none →
      genre_create_post gs freshId raw =
        (gs ++ [{ _id := freshId, name := sanitizedGenreName raw }],
          .redirect (Genre.url { _id := freshId, name := sanitizedGenreName raw }))) := by
  constructor
  · intro g hg
    refine ⟨by simp [genre_create_post, hv, hg], List.mem_of_find?_eq_some hg, ?_⟩
    have hp := List.find?_some hg
    simpa using hp
  · intro hnone
    simp [genre_create_post, hv, hnone]

/-- C2 witness: re-submitting the name of the stored genre leaves the store
unchanged and redirects to the stored record; a fresh name is appended. -/
theorem C2_genre_create_dedup_witness :
    genre_create_post [⟨"g1", "Fantasy"⟩] "g9" "Fantasy" =
      ([⟨"g1", "Fantasy"⟩], .redirect (Genre.url ⟨"g1", "Fantasy"⟩)) :=
  ((C2_genre_create_dedup [⟨"g1", "Fantasy"⟩] "g9" "Fantasy" (by decide)).1
    ⟨"g1", "Fantasy"⟩ (by decide)).1

/-- C9: a Genre create whose name trims to fewer than 3 characters is
rejected: the form is re-rendered with the candidate and the error message,
and the store (hence the Genre record count) is unchanged. -/
theorem C9_genre_short_name_rejected (gs : List Genre) (freshId : Oid)
    (raw : String) (h : (jsTrim raw).length < 3) :
    genre_create_post gs freshId raw =
      (gs, .renderForm "Create Genre"
        ["Genre must contain at least 3 characteres"]
        (some { _id := freshId, name := sanitizedGenreName raw })) ∧
    (genre_create_post gs freshId raw).1.length = gs.length := by
  have he : genreNameErrors raw = ["Genre must contain at least 3 characteres"] := by
    simp [genreNameErrors, h]
  constructor
  · simp [genre_create_post, he]
  · simp [genre_create_post, he]

/-- C9 witness: the two-character name `"ab"` is rejected with the store
untouched. -/
theorem C9_genre_short_name_rejected_witness :
    genre_create_post [⟨"g1", "Fantasy"⟩] "g2" "ab" =
      ([⟨"g1", "Fantasy"⟩], .renderForm "Create Genre"
        ["Genre must contain at least 3 characteres"]
        (some { _id := "g2", name := sanitizedGenreName "ab" })) :=
  (C9_genre_short_name_rejected [⟨"g1", "Fantasy"⟩] "g2" "ab" (by decide)).1

/-- C10: a valid Genre update whose sanitized name matches any stored genre
(the target itself included) performs no write — the store is returned
unchanged — and redirects to the matching record's canonical URL. -/
theorem C10_genre_update_same_name_no_write (gs : List Genre) (pathId : Oid)
    (raw : String) (g : Genre)
    (hv : genreNameErrors raw = [])
    (hfind : findOneGenreByName gs (sanitizedGenreName raw) = some g) :
    genre_update_post gs pathId raw = (gs, .redirect g.url) ∧
      g ∈ gs ∧ g.name = sanitizedGenreName raw := by
  refine ⟨by simp [genre_update_post, hv, hfind], List.mem_of_find?_eq_some hfind, ?_⟩
  have hp := List.find?_some hfind
  simpa using hp

/-- C10 witness: re-submitting a genre's own unchanged name on update leaves
the store entirely unchanged and redirects to that genre. -/
theorem C10_genre_update_same_name_no_write_witness :
    genre_update_post [⟨"g5", "Fantasy"⟩] "g5" "Fantasy" =
      ([⟨"g5", "Fantasy"⟩], .redirect (Genre.url ⟨"g5", "Fantasy"⟩)) :=
  (C10_genre_update_same_name_no_write [⟨"g5", "Fantasy"⟩] "g5" "Fantasy"
    ⟨"g5", "Fantasy"⟩ (by decide) (by decide)).1

/-- C7: a Book create whose input fails validation persists nothing — the
store is unchanged — and re-renders the form with the candidate, the error
list, and checked-state annotations in which a genre option is marked
exactly when its identifier is a member of the candidate's genre list. -/
theorem C7_book_create_invalid_marks_checked (bs : List Book)
    (authors : List Author) (genres : List Genre) (freshId : Oid)
    (f : BookForm) (hv : bookErrorsCreate f ≠ []) :
    (book_create_post bs authors genres freshId f).1 = bs ∧
    (book_create_post bs authors genres freshId f).2 =
      .renderForm "Create Book" (bookErrorsCreate f) authors
        (markChecked genres (bookCandidate f freshId).genre)
        (bookCandidate f freshId) ∧
    ∀ g ∈ genres,
      ((g, true) ∈ markChecked genres (bookCandidate f freshId).genre ↔
        g._id ∈ (bookCandidate f freshId).genre) := by
  refine ⟨by simp [book_create_post, hv], by simp [book_create_post, hv], ?_⟩
  intro g hg
  simp only [markChecked, List.mem_map, Prod.mk.injEq]
  constructor
  · rintro ⟨a, _, rfl, hc⟩
    simpa using hc
  · intro hmem
    exact ⟨g, hg, rfl, by simpa using hmem⟩

/-- C7 witness: with an empty title, the store is untouched and the genre
option selected by the candidate is the one marked checked. -/
theorem C7_book_create_invalid_marks_checked_witness :
    (book_create_post [] [] [⟨"g1", "Fantasy"⟩] "b9"
        ⟨"", "a", "s", "i", .list ["g1"]⟩).1 = [] ∧
    ((⟨"g1", "Fantasy"⟩, true) ∈
        markChecked [⟨"g1", "Fantasy"⟩]
          (bookCandidate ⟨"", "a", "s", "i", .list ["g1"]⟩ "b9").genre ↔
      "g1" ∈ (bookCandidate ⟨"", "a", "s", "i", .list ["g1"]⟩ "b9").genre) := by
  have h := C7_book_create_invalid_marks_checked [] [] [⟨"g1", "Fantasy"⟩] "b9"
    ⟨"", "a", "s", "i", .list ["g1"]⟩ (by decide)
  exact ⟨h.1, h.2.2 ⟨"g1", "Fantasy"⟩ (by simp)⟩

/-- C3: a valid update POST for each entity builds the candidate with the
path identifier, so the replace-by-identifier write leaves the record count
and the identifier list of the store unchanged, for Genre, BookInstance and
Book alike. -/
theorem C3_update_preserves_count_and_ids
    (gs : List Genre) (gid : Oid) (graw : String)
    (iso : String → Bool) (bis : List BookInstance) (blist : List Book)
    (biid : Oid) (fbi : BIForm)
    (bs : List Book) (authors : List Author) (genres : List Genre)
    (bid : Oid) (bf : BookForm)
    (hgv : genreNameErrors graw = [])
    (hgid : gid ∈ gs.map Genre._id)
    (hbiv : biErrors iso fbi = [])
    (hbiid : biid ∈ bis.map BookInstance._id)
    (hbv : bookErrorsUpdate bf = [])
    (hbid : bid ∈ bs.map Book._id) :
    ((genre_update_post gs gid graw).1.length = gs.length ∧
      (genre_update_post gs gid graw).1.map Genre._id = gs.map Genre._id) ∧
    ((bookinstance_update_post iso bis blist biid fbi).1.length = bis.length ∧
      (bookinstance_update_post iso bis blist biid fbi).1.map BookInstance._id =
        bis.map BookInstance._id) ∧
    ((book_update_post bs authors genres bid bf).1.length = bs.length ∧
      (book_update_post bs authors genres bid bf).1.map Book._id =
        bs.map Book._id) := by
  have hrg := map_proj_replace gs Genre._id gid
    ⟨gid, sanitizedGenreName graw⟩ rfl
  have hrbi := map_proj_replace bis BookInstance._id biid (biCandidate fbi biid) rfl
  have hrb := map_proj_replace bs Book._id bid (bookCandidate bf bid) rfl
  refine ⟨?_, ?_, ?_⟩
  · have h1 : (genre_update_post gs gid graw).1.map Genre._id = gs.map Genre._id := by
      cases hfo : findOneGenreByName gs (sanitizedGenreName graw) with
      | some g => simp [genre_update_post, hgv, hfo]
      | none =>
          cases hfi : gs.find? (fun r => r._id = gid) with
          | some old =>
              simpa [genre_update_post, hgv, hfo, findByIdAndUpdateGenre, hfi] using hrg
          | none =>
              simpa [genre_update_post, hgv, hfo, findByIdAndUpdateGenre, hfi] using hrg
    refine ⟨?_, h1⟩
    have := congrArg List.length h1
    simpa using this
  · have h1 : (bookinstance_update_post iso bis blist biid fbi).1.map BookInstance._id =
        bis.map BookInstance._id := by
      cases hfi : bis.find? (fun r => r._id = biid) with
      | some old =>
          simpa [bookinstance_update_post, hbiv, findByIdAndUpdateBI, hfi] using hrbi
      | none =>
          simpa [bookinstance_update_post, hbiv, findByIdAndUpdateBI, hfi] using hrbi
    refine ⟨?_, h1⟩
    have := congrArg List.length h1
    simpa using this
  · have h1 : (book_update_post bs authors genres bid bf).1.map Book._id =
        bs.map Book._id := by
      cases hfi : bs.find? (fun r => r._id = bid) with
      | some old =>
          simpa [book_update_post, notErrorsIsEmptyRef, findByIdAndUpdateBook, hfi] using hrb
      | none =>
          simpa [book_update_post, notErrorsIsEmptyRef, findByIdAndUpdateBook, hfi] using hrb
    refine ⟨?_, h1⟩
    have := congrArg List.length h1
    simpa using this

/-- C3 witness: updating each entity's single stored record with valid input
and the path identifier keeps the count at one and the identifier in
place. -/
theorem C3_update_preserves_count_and_ids_witness :
    ((genre_update_post [⟨"g1", "Fantasy"⟩] "g1" "Horror").1.length = 1 ∧
      (genre_update_post [⟨"g1", "Fantasy"⟩] "g1" "Horror").1.map Genre._id = ["g1"]) ∧
    ((bookinstance_update_post (fun _ => true) [⟨"i1", "b1", "Imp", "Loaned", ""⟩] []
        "i1" ⟨"b1", "2nd Ed", "Loaned", ""⟩).1.length = 1 ∧
      (bookinstance_update_post (fun _ => true) [⟨"i1", "b1", "Imp", "Loaned", ""⟩] []
        "i1" ⟨"b1", "2nd Ed", "Loaned", ""⟩).1.map BookInstance._id = ["i1"]) ∧
    ((book_update_post [⟨"b1", "T", "a1", "S", "I", []⟩] [] [] "b1"
        ⟨"T2", "a1", "S2", "I2", .absent⟩).1.length = 1 ∧
      (book_update_post [⟨"b1", "T", "a1", "S", "I", []⟩] [] [] "b1"
        ⟨"T2", "a1", "S2", "I2", .absent⟩).1.map Book._id = ["b1"]) := by
  have h := C3_update_preserves_count_and_ids
    [⟨"g1", "Fantasy"⟩] "g1" "Horror"
    (fun _ => true) [⟨"i1", "b1", "Imp", "Loaned", ""⟩] [] "i1" ⟨"b1", "2nd Ed", "Loaned", ""⟩
    [⟨"b1", "T", "a1", "S", "I", []⟩] [] [] "b1" ⟨"T2", "a1", "S2", "I2", .absent⟩
    (by decide) (by decide) (by decide) (by decide) (by decide) (by decide)
  exact h

end MdnEllt
